import Mathlib

/-!
Verification development for the gozwave repository: a shallow embedding of
the packet codec, the serial transport dispatcher, the network request gate,
the message codecs and the node layer, with theorems settling the spec claims.

Bytes are modelled as Nat values (with explicit mod 256 where the Go code can
wrap); Go slices become List Nat; fallible Go functions return Except.
-/

namespace GoZWave

/-! Section: Packet codec (src/packet/packet.go) -/

def PacketPreambleSOF : Nat := 0x01
def PacketPreambleACK : Nat := 0x06
def PacketPreambleNAK : Nat := 0x15
def PacketPreambleCAN : Nat := 0x18

def PacketTypeRequest : Nat := 0x00
def PacketTypeResponse : Nat := 0x01

structure Packet where
  preamble : Nat := 0
  length : Nat := 0
  packetType : Nat := 0
  messageType : Nat := 0
  body : List Nat := []
  checksum : Nat := 0
deriving DecidableEq, Repr

/-- Packet.Update (packet.go lines 96-124): for ACK/NAK/CAN leave the packet
alone; otherwise refuse bodies longer than 252 bytes and recompute the length
and the XOR checksum. -/
def Packet.update (pk : Packet) : Except String Packet :=
  if pk.preamble = PacketPreambleACK ∨ pk.preamble = PacketPreambleNAK ∨
      pk.preamble = PacketPreambleCAN then
    .ok pk
  else if pk.body.length > 0xff - 3 then
    .error "Packet Body is too long"
  else
    let length := 3 + pk.body.length
    let checksum :=
      pk.body.foldl (fun c x => c ^^^ x)
        (((0xff ^^^ length) ^^^ pk.packetType) ^^^ pk.messageType)
    .ok { pk with length := length, checksum := checksum }

/-- Packet.Bytes (packet.go lines 73-92): run Update, then emit the preamble
byte, and for SOF also length, packet type, message type, body, checksum. -/
def Packet.bytes (pk : Packet) : Except String (List Nat) :=
  match pk.update with
  | .error e => .error e
  | .ok q =>
    if q.preamble = PacketPreambleSOF then
      .ok (q.preamble :: q.length :: q.packetType :: q.messageType ::
              (q.body ++ [q.checksum]))
    else
      .ok [q.preamble]

inductive PacketParseState where
  | preamble
  | length
  | packetType
  | messageType
  | body
  | checksum
deriving DecidableEq, Repr

/-- PacketParser state: the Go struct holds a state enum and a *Packet that is
nil outside an in-progress SOF parse. -/
structure PacketParser where
  state : PacketParseState := .preamble
  packet : Option Packet := none
deriving DecidableEq, Repr

def PacketParser.init : PacketParser := {}

/-- Result of feeding one byte: the next parser state, an emitted packet (on
completion) and an error (on a framing failure). -/
structure ParseResult where
  parser : PacketParser
  packet : Option Packet
  err : Option String
deriving DecidableEq, Repr

/-- PacketParser.Parse (packet.go lines 129-213), one byte at a time.  The
none-packet branches in the non-preamble states mirror a nil pointer in the Go
code; they are unreachable from the initial state. -/
def PacketParser.parse (pr : PacketParser) (b : Nat) : ParseResult :=
  match pr.state with
  | .preamble =>
    if b = PacketPreambleACK ∨ b = PacketPreambleNAK ∨ b = PacketPreambleCAN then
      ⟨pr, some { preamble := b }, none⟩
    else if b = PacketPreambleSOF then
      ⟨{ state := .length, packet := some { preamble := b } }, none, none⟩
    else
      ⟨{ state := .preamble, packet := none }, none, some "Bad preamble"⟩
  | .length =>
    match pr.packet with
    | none => ⟨{ state := .preamble, packet := none }, none, some "Invalid internal state"⟩
    | some pk =>
      if b < 3 then
        ⟨{ state := .preamble, packet := none }, none, some "Bad length"⟩
      else
        ⟨{ state := .packetType, packet := some { pk with length := b } }, none, none⟩
  | .packetType =>
    match pr.packet with
    | none => ⟨{ state := .preamble, packet := none }, none, some "Invalid internal state"⟩
    | some pk =>
      if b ≠ PacketTypeRequest ∧ b ≠ PacketTypeResponse then
        ⟨{ state := .preamble, packet := none }, none, some "Bad PacketType"⟩
      else
        ⟨{ state := .messageType, packet := some { pk with packetType := b } }, none, none⟩
  | .messageType =>
    match pr.packet with
    | none => ⟨{ state := .preamble, packet := none }, none, some "Invalid internal state"⟩
    | some pk =>
      let pk2 : Packet := { pk with messageType := b }
      if pk2.length = 3 then
        ⟨{ state := .checksum, packet := some pk2 }, none, none⟩
      else
        ⟨{ state := .body, packet := some pk2 }, none, none⟩
  | .body =>
    match pr.packet with
    | none => ⟨{ state := .preamble, packet := none }, none, some "Invalid internal state"⟩
    | some pk =>
      let pk2 : Packet := { pk with body := pk.body ++ [b] }
      if pk2.body.length = pk2.length - 3 then
        ⟨{ state := .checksum, packet := some pk2 }, none, none⟩
      else
        ⟨{ state := .body, packet := some pk2 }, none, none⟩
  | .checksum =>
    match pr.packet with
    | none => ⟨{ state := .preamble, packet := none }, none, some "Invalid internal state"⟩
    | some pk =>
      match pk.update with
      | .error _ =>
        ⟨{ state := .preamble, packet := none }, none, some "Failed to compute checksum"⟩
      | .ok q =>
        if q.checksum = b then
          ⟨{ state := .preamble, packet := none }, some q, none⟩
        else
          ⟨{ state := .preamble, packet := none }, none, some "Failed to validate checksum"⟩

/-- Feed a byte list one byte at a time, collecting the (packet, error) output
produced for each byte. -/
def feedOutputs : PacketParser → List Nat → List (Option Packet × Option String)
  | _, [] => []
  | pr, b :: rest =>
    let r := pr.parse b
    (r.packet, r.err) :: feedOutputs r.parser rest

/-- One-step unfolding of feedOutputs. -/
theorem feedOutputs_cons (pr : PacketParser) (b : Nat) (rest : List Nat) :
    feedOutputs pr (b :: rest) =
      ((pr.parse b).packet, (pr.parse b).err) :: feedOutputs (pr.parse b).parser rest := rfl

/-- The Body-state transition: append the byte and move to the Checksum state
exactly when length minus three bytes have been collected. -/
theorem parse_body_step (pk : Packet) (b : Nat) :
    PacketParser.parse ⟨.body, some pk⟩ b =
      ⟨⟨if pk.body.length + 1 = pk.length - 3 then .checksum else .body,
        some { pk with body := pk.body ++ [b] }⟩, none, none⟩ := by
  simp only [PacketParser.parse]
  by_cases h : pk.body.length + 1 = pk.length - 3 <;> simp [h]

/-- Feeding body bytes in the Body state accumulates them one at a time with
no output, then hands over to the Checksum state once length minus three bytes
have been collected. -/
theorem feedOutputs_body (c : Nat) (rest : List Nat) (hne : rest ≠ []) :
    ∀ pk : Packet, pk.body.length + rest.length + 3 = pk.length →
    feedOutputs ⟨.body, some pk⟩ (rest ++ [c]) =
      List.replicate rest.length ((none : Option Packet), (none : Option String)) ++
        feedOutputs ⟨.checksum, some { pk with body := pk.body ++ rest }⟩ [c] := by
  induction rest with
  | nil => exact absurd rfl hne
  | cons x xs ih =>
    intro pk hlen
    simp only [List.length_cons] at hlen
    rw [List.cons_append, feedOutputs_cons, parse_body_step]
    cases xs with
    | nil =>
      have hcond : pk.body.length + 1 = pk.length - 3 := by
        simp only [List.length_nil] at hlen; omega
      rw [if_pos hcond]
      simp
    | cons y ys =>
      have hcond : ¬(pk.body.length + 1 = pk.length - 3) := by
        simp only [List.length_cons] at hlen; omega
      rw [if_neg hcond]
      have hrec := ih (by simp) { pk with body := pk.body ++ [x] }
        (by simp only [List.length_append, List.length_cons, List.length_nil] at hlen ⊢; omega)
      rw [hrec]
      simp [List.replicate_succ, List.append_assoc]

/-- The Checksum-state transition on an SOF packet with a small enough body:
the checksum is recomputed and compared against the incoming byte. -/
theorem parse_checksum_step (pk : Packet) (b : Nat)
    (hpre : pk.preamble = PacketPreambleSOF) (hblen : pk.body.length ≤ 252) :
    PacketParser.parse ⟨.checksum, some pk⟩ b =
      (if pk.body.foldl (fun c x => c ^^^ x)
          (((0xff ^^^ (3 + pk.body.length)) ^^^ pk.packetType) ^^^ pk.messageType) = b then
        ⟨{ state := .preamble, packet := none },
          some { pk with
            length := 3 + pk.body.length,
            checksum := pk.body.foldl (fun c x => c ^^^ x)
              (((0xff ^^^ (3 + pk.body.length)) ^^^ pk.packetType) ^^^ pk.messageType) }, none⟩
      else
        ⟨{ state := .preamble, packet := none }, none,
          some "Failed to validate checksum"⟩) := by
  have hnotack : ¬(pk.preamble = PacketPreambleACK ∨ pk.preamble = PacketPreambleNAK ∨
      pk.preamble = PacketPreambleCAN) := by
    rw [hpre]; decide
  simp only [PacketParser.parse, Packet.update, hnotack, if_false,
    if_neg (by omega : ¬ pk.body.length > 0xff - 3)]

/-- Claim C2: for every valid packet (ACK/NAK/CAN with no other fields, or a
normalised SOF packet with packet type 0x00 or 0x01 and body of at most 252
bytes), feeding the serialiser output into the incremental parser one byte at
a time produces no packet and no error on every byte but the last, yields on
the final byte exactly the packet with no error, and for SOF packets the
checksum of the parsed packet equals the last serialised byte. -/
theorem c2_roundtrip (p : Packet) (bs : List Nat)
    (hvalid :
      ((p.preamble = PacketPreambleACK ∨ p.preamble = PacketPreambleNAK ∨
          p.preamble = PacketPreambleCAN) ∧
        p.length = 0 ∧ p.packetType = 0 ∧ p.messageType = 0 ∧ p.body = [] ∧ p.checksum = 0) ∨
      (p.preamble = PacketPreambleSOF ∧
        (p.packetType = PacketTypeRequest ∨ p.packetType = PacketTypeResponse) ∧
        p.body.length ≤ 252 ∧ p.update = .ok p))
    (hbytes : p.bytes = .ok bs) :
    feedOutputs .init bs =
      List.replicate (bs.length - 1) ((none : Option Packet), (none : Option String)) ++
        [(some p, none)] ∧
    (p.preamble = PacketPreambleSOF → bs.getLast? = some p.checksum) := by
  obtain ⟨pre, L, pt, mt, body, ck⟩ := p
  rcases hvalid with ⟨hpre, hL, hpt, hmt, hbody, hck⟩ | ⟨hpre, hpt, hblen, hupd⟩
  · simp only at hpre hL hpt hmt hbody hck
    subst hL hpt hmt hbody hck
    rcases hpre with h | h | h <;> subst h <;>
      · simp [Packet.bytes, Packet.update, PacketPreambleACK, PacketPreambleNAK,
          PacketPreambleCAN, PacketPreambleSOF] at hbytes
        subst hbytes
        decide
  · simp only at hpre hpt hblen hupd
    subst hpre
    -- the serialised byte list in terms of the packet fields
    have hbs : bs = PacketPreambleSOF :: L :: pt :: mt :: (body ++ [ck]) := by
      simp only [Packet.bytes, hupd] at hbytes
      simp at hbytes
      exact hbytes.symm
    subst hbs
    -- the normalisation equations hidden in update
    have hnotack : ¬(PacketPreambleSOF = PacketPreambleACK ∨
        PacketPreambleSOF = PacketPreambleNAK ∨ PacketPreambleSOF = PacketPreambleCAN) := by
      decide
    rw [Packet.update] at hupd
    simp only at hupd
    rw [if_neg hnotack, if_neg (by omega : ¬ body.length > 0xff - 3)] at hupd
    rw [Except.ok.injEq, Packet.mk.injEq] at hupd
    obtain ⟨-, hLen, -, -, -, hCk⟩ := hupd
    refine ⟨?_, ?_⟩
    · -- parse the preamble, length, packet type and message type bytes
      have h2 : ¬ L < 3 := by omega
      have h3 : ¬(pt ≠ PacketTypeRequest ∧ pt ≠ PacketTypeResponse) := by
        rcases hpt with h | h <;> simp [h]
      have hstep4 : feedOutputs .init (PacketPreambleSOF :: L :: pt :: mt :: (body ++ [ck])) =
          ((none : Option Packet), (none : Option String)) :: (none, none) :: (none, none) ::
            (none, none) ::
            feedOutputs ⟨if L = 3 then .checksum else .body,
              some ⟨PacketPreambleSOF, L, pt, mt, [], 0⟩⟩ (body ++ [ck]) := by
        simp only [feedOutputs, PacketParser.init, PacketParser.parse]
        simp [hnotack, h2, h3]
        split <;> simp
      rw [hstep4]
      rcases hbodycase : body with _ | ⟨b0, brest⟩
      · -- empty body: the message type state jumps straight to the checksum state
        subst hbodycase
        simp only [List.length_nil] at hLen
        have hL3 : L = 3 := by omega
        subst hL3
        rw [if_pos rfl]
        simp only [List.nil_append, feedOutputs_cons]
        rw [parse_checksum_step _ _ rfl (by simp)]
        rw [if_pos hCk]
        simp [feedOutputs]
        simpa using hCk
      · -- nonempty body: walk the body state, then the checksum state
        rw [← hbodycase]
        have hbne : body ≠ [] := by simp [hbodycase]
        have hblen1 : 0 < body.length := by
          rw [hbodycase]; simp
        have hLne3 : ¬ L = 3 := by omega
        rw [if_neg hLne3]
        rw [feedOutputs_body ck body hbne ⟨PacketPreambleSOF, L, pt, mt, [], 0⟩
          (by simp; omega)]
        simp only [List.nil_append]
        rw [feedOutputs_cons]
        rw [parse_checksum_step _ _ rfl (by simpa using hblen)]
        rw [if_pos hCk]
        have hlenbs : (PacketPreambleSOF :: L :: pt :: mt :: (body ++ [ck])).length - 1 =
            4 + body.length := by simp; omega
        rw [hlenbs]
        have hrepl : List.replicate (4 + body.length)
            ((none : Option Packet), (none : Option String)) =
            (none, none) :: (none, none) :: (none, none) :: (none, none) ::
              List.replicate body.length (none, none) := by
          rw [Nat.add_comm 4 body.length]
          simp [List.replicate_succ, List.replicate_add]
        rw [hrepl]
        simp [feedOutputs, hLen]
        rw [← hLen]
        exact hCk
    · intro _
      have hsplit : (PacketPreambleSOF :: L :: pt :: mt :: (body ++ [ck])) =
          (PacketPreambleSOF :: L :: pt :: mt :: body) ++ [ck] := by simp
      rw [hsplit, List.getLast?_concat]

/-! Section: Message types used by the transport (src/message/message.go) -/

def MessageTypeNone : Nat := 0x00
def MessageTypeSerialAPIGetInitData : Nat := 0x02
def MessageTypeApplicationCommand : Nat := 0x04
def MessageTypeZWGetControllerCapabilities : Nat := 0x05
def MessageTypeSerialAPIGetCapabilities : Nat := 0x07
def MessageTypeZWSendData : Nat := 0x13
def MessageTypeGetVersion : Nat := 0x15
def MessageTypeMemoryGetID : Nat := 0x20
def MessageTypeZWGetNodeProtocolInfo : Nat := 0x41
def MessageTypeZWApplicationUpdate : Nat := 0x49
def MessageTypeZWRequestNodeInfo : Nat := 0x60

/-! Section: Serial transport dispatcher (src/controller/controller.go) -/

/-- ackBytes (controller.go line 84): an ACK preamble followed by a newline. -/
def ackBytes : List Nat := [PacketPreambleACK, 10]

/-- nakBytes (controller.go line 85): a NAK preamble followed by a newline. -/
def nakBytes : List Nat := [PacketPreambleNAK, 10]

def callbackIDMin : Nat := 0x0a + 1
def callbackIDMax : Nat := 0x7f

/-- Modelled from the spec: Packet.Copy is referenced by the transport
(sendToCallback forwards packet.Copy() to the callback channel) but its body is
not under src; the spec says a copy of the packet is forwarded to the callback
sink, so a copy carries the same field values as the original. -/
def Packet.copy (p : Packet) : Packet :=
  { preamble := p.preamble, length := p.length, packetType := p.packetType,
    messageType := p.messageType, body := p.body, checksum := p.checksum }

theorem Packet.copy_eq (p : Packet) : p.copy = p := rfl

/-- getZWaveCallbackID (controller.go lines 307-316): reset the counter to the
minimum when it left the window, hand out the current value, and advance the
(uint8) counter by one.  Returns (id handed out, new counter value). -/
def getZWaveCallbackID (lastCallbackID : Nat) : Nat × Nat :=
  let last := if lastCallbackID ≥ callbackIDMax ∨ lastCallbackID < callbackIDMin then
    callbackIDMin else lastCallbackID
  (last, (last + 1) % 256)

/-- The counter value before the n-th callback id is handed out, starting from
counter state s. -/
def callbackIDState (s : Nat) : Nat → Nat
  | 0 => s
  | n + 1 => (getZWaveCallbackID (callbackIDState s n)).2

/-- The n-th callback id handed out starting from counter state s. -/
def callbackIDAt (s n : Nat) : Nat := (getZWaveCallbackID (callbackIDState s n)).1

/-- An event seen by the dispatcher while a request is in flight: a packet (or
the nil parse-error sentinel) from the reader worker, a timeout, or the stop
signal. -/
inductive TransportEvent where
  | response (p : Option Packet)
  | timeout
  | stop
deriving DecidableEq

/-- The mutable locals of the phase-A (await ACK) loop of doRequests
(controller.go lines 430-508). -/
structure PhaseAState where
  attempt : Nat
  resend : Bool
  gotACK : Bool
deriving DecidableEq, Repr

/-- Effect of one phase-A loop iteration: either keep looping with an updated
state after writing the given byte strings to the wire and forwarding the
given packets to the callback sink, or exit because the controller closed. -/
inductive PhaseAOutcome where
  | loop (s : PhaseAState) (wire : List (List Nat)) (sink : List Packet)
  | stopped
deriving DecidableEq, Repr

/-- One iteration of the phase-A select body (controller.go lines 444-507),
translated case by case from the Go switch on the received preamble. -/
def phaseAStep (s : PhaseAState) (ev : TransportEvent) : PhaseAOutcome :=
  match ev with
  | .response none =>
    .loop { s with attempt := s.attempt + 1 } [nakBytes] []
  | .response (some r) =>
    if r.preamble = PacketPreambleSOF then
      .loop s [ackBytes] [r.copy]
    else if r.preamble = PacketPreambleCAN then
      .loop { s with resend := true } [] []
    else if r.preamble = PacketPreambleACK then
      .loop { s with gotACK := true } [] []
    else if r.preamble = PacketPreambleNAK then
      .loop { s with attempt := s.attempt + 1, resend := true } [] []
    else
      .loop { s with attempt := s.attempt + 1 } [] []
  | .timeout =>
    .loop { s with attempt := s.attempt + 1, resend := true } [] []
  | .stop => .stopped

/-- The mutable locals of the phase-B (await response) loop of doRequests
(controller.go lines 517-642). -/
structure PhaseBState where
  attempt : Nat
  responseCount : Nat
deriving DecidableEq, Repr

/-- Effect of one phase-B loop iteration: keep waiting, complete the request
with a response, or exit because the controller closed. -/
inductive PhaseBOutcome where
  | loop (s : PhaseBState) (wire : List (List Nat)) (sink : List Packet)
  | complete (resp : Packet) (wire : List (List Nat)) (sink : List Packet)
  | stopped
deriving DecidableEq, Repr

/-- One iteration of the phase-B select body (controller.go lines 523-641),
translated case by case: SOF responses are ACKed immediately; a message-type
mismatch routes to the callback sink; ZWSendData expects a one-byte 0x01 body
first (restarting the attempt budget), then a four-byte body whose first byte
is the injected callback id. -/
def phaseBStep (reqMessageType : Nat) (callbackID : Nat) (s : PhaseBState)
    (ev : TransportEvent) : PhaseBOutcome :=
  match ev with
  | .response none =>
    .loop { s with attempt := s.attempt + 1 } [nakBytes] []
  | .response (some r) =>
    if r.preamble = PacketPreambleSOF then
      if reqMessageType ≠ r.messageType then
        .loop { s with attempt := s.attempt + 1 } [ackBytes] [r.copy]
      else if r.messageType = MessageTypeZWSendData then
        if s.responseCount = 0 then
          if r.body.length ≠ 1 then
            .loop { s with attempt := s.attempt + 1 } [ackBytes] [r.copy]
          else if r.body.headD 0 ≠ 1 then
            .loop { s with attempt := s.attempt + 1 } [ackBytes] []
          else
            .loop { attempt := 0, responseCount := 1 } [ackBytes] []
        else
          if r.body.length ≠ 4 then
            .loop { s with attempt := s.attempt + 1 } [ackBytes] []
          else if r.body.headD 0 ≠ callbackID then
            .loop { s with attempt := s.attempt + 1 } [ackBytes] [r.copy]
          else
            .complete r [ackBytes] []
      else
        .complete r [ackBytes] []
    else if r.preamble = PacketPreambleCAN then
      .loop { s with attempt := s.attempt + 1 } [] []
    else if r.preamble = PacketPreambleACK then
      .loop { s with attempt := s.attempt + 1 } [] []
    else if r.preamble = PacketPreambleNAK then
      .loop { s with attempt := s.attempt + 1 } [] []
    else
      .loop { s with attempt := s.attempt + 1 } [] []
  | .timeout =>
    .loop { s with attempt := s.attempt + 1 } [] []
  | .stop => .stopped

/-- Claim C1: while a request is in phase A (awaiting ACK), an unsolicited SOF
packet is ACKed on the byte channel, a copy of it is forwarded to the callback
sink, and the loop state - in particular the retry attempt counter - is left
unchanged, so the handshake continues with its full remaining budget. -/
theorem c1_phaseA_unsolicited_sof (s : PhaseAState) (r : Packet)
    (hsof : r.preamble = PacketPreambleSOF) :
    phaseAStep s (.response (some r)) = .loop s [ackBytes] [r] ∧ r.copy = r := by
  refine ⟨?_, Packet.copy_eq r⟩
  simp [phaseAStep, hsof, Packet.copy_eq]

/-- Witness for C1 at a concrete state and packet. -/
theorem c1_phaseA_unsolicited_sof_witness :
    phaseAStep ⟨2, false, false⟩
        (.response (some { preamble := PacketPreambleSOF, messageType := 0x04 })) =
      .loop ⟨2, false, false⟩ [ackBytes]
        [{ preamble := PacketPreambleSOF, messageType := 0x04 }] :=
  (c1_phaseA_unsolicited_sof ⟨2, false, false⟩
    { preamble := PacketPreambleSOF, messageType := 0x04 } rfl).1

/-- Counterexample to claim C4 as stated: with zero attempts consumed, a CAN
preamble in phase A leaves the attempt counter at zero (and only marks the
request for retransmission), whereas the claim requires the counter to advance
to one. -/
theorem c4_counterexample :
    phaseAStep ⟨0, false, false⟩ (.response (some { preamble := PacketPreambleCAN })) =
      .loop ⟨0, true, false⟩ [] [] ∧
    (⟨0, true, false⟩ : PhaseAState) ≠ ⟨0 + 1, true, false⟩ := by
  exact ⟨rfl, by decide⟩

/-- Claim C4 (amended): receipt of a CAN preamble in phase A causes the
request to be retransmitted (the resend flag is set) and is not fatal (the
loop keeps running), but it does not consume a retry attempt. -/
theorem c4_amended_can_retransmits (s : PhaseAState) (r : Packet)
    (hcan : r.preamble = PacketPreambleCAN) :
    phaseAStep s (.response (some r)) = .loop { s with resend := true } [] [] := by
  simp [phaseAStep, hcan, PacketPreambleCAN, PacketPreambleSOF]

/-- Witness for the amended C4 at a concrete state and packet. -/
theorem c4_amended_can_retransmits_witness :
    phaseAStep ⟨3, false, false⟩ (.response (some { preamble := PacketPreambleCAN })) =
      .loop ⟨3, true, false⟩ [] [] :=
  c4_amended_can_retransmits ⟨3, false, false⟩ { preamble := PacketPreambleCAN } rfl

/-- Claim C5: after phase A and the first one-byte ZWSendData response, a
second SOF response of the ZWSendData message type completes the request if
and only if its body has length four and its first body byte equals the
injected callback id; on a callback-id mismatch the packet is forwarded to
the callback sink, one response attempt is consumed, and the loop keeps
waiting. -/
theorem c5_senddata_second_response (cid att : Nat) (r : Packet)
    (hsof : r.preamble = PacketPreambleSOF)
    (hmt : r.messageType = MessageTypeZWSendData) :
    (phaseBStep MessageTypeZWSendData cid ⟨att, 1⟩ (.response (some r)) =
        .complete r [ackBytes] [] ↔
      (r.body.length = 4 ∧ r.body.headD 0 = cid)) ∧
    (r.body.length = 4 → r.body.headD 0 ≠ cid →
      phaseBStep MessageTypeZWSendData cid ⟨att, 1⟩ (.response (some r)) =
        .loop ⟨att + 1, 1⟩ [ackBytes] [r]) := by
  constructor
  · by_cases hlen : r.body.length = 4
    · by_cases hhd : r.body.headD 0 = cid
      · simp [phaseBStep, hsof, hmt, hlen, hhd]
      · simp [phaseBStep, hsof, hmt, hlen, hhd]
    · simp [phaseBStep, hsof, hmt, hlen]
  · intro hlen hhd
    rw [List.headD_eq_head?] at hhd
    simp [phaseBStep, hsof, hmt, hlen, hhd, Packet.copy_eq, List.headD_eq_head?]

/-- Witness for C5 at a concrete callback id and packets: the matching body
completes the request, the mismatching body is routed to the sink. -/
theorem c5_senddata_second_response_witness :
    (phaseBStep MessageTypeZWSendData 0x0b ⟨0, 1⟩
        (.response (some {
          preamble := PacketPreambleSOF,
          messageType := MessageTypeZWSendData, body := [0x0b, 0, 0, 0] })) =
      .complete {
          preamble := PacketPreambleSOF, messageType := MessageTypeZWSendData,
          body := [0x0b, 0, 0, 0] } [ackBytes] []) ∧
    (phaseBStep MessageTypeZWSendData 0x0b ⟨0, 1⟩
        (.response (some {
          preamble := PacketPreambleSOF,
          messageType := MessageTypeZWSendData, body := [0x0c, 0, 0, 0] })) =
      .loop ⟨1, 1⟩ [ackBytes]
        [{
          preamble := PacketPreambleSOF, messageType := MessageTypeZWSendData,
          body := [0x0c, 0, 0, 0] }]) := by
  constructor
  · exact (c5_senddata_second_response 0x0b 0
      {
        preamble := PacketPreambleSOF, messageType := MessageTypeZWSendData,
        body := [0x0b, 0, 0, 0] } rfl rfl).1.mpr (by decide)
  · exact (c5_senddata_second_response 0x0b 0
      {
        preamble := PacketPreambleSOF, messageType := MessageTypeZWSendData,
        body := [0x0c, 0, 0, 0] } rfl rfl).2 (by decide) (by decide)

/-- The counter value actually used once the reset window check has run:
values outside [callbackIDMin, callbackIDMax) are replaced by callbackIDMin. -/
def callbackClamp (s : Nat) : Nat :=
  if s ≥ callbackIDMax ∨ s < callbackIDMin then callbackIDMin else s

theorem callbackClamp_bounds (s : Nat) :
    0x0b ≤ callbackClamp s ∧ callbackClamp s ≤ 0x7e := by
  unfold callbackClamp callbackIDMin callbackIDMax
  split <;> omega

theorem getZWaveCallbackID_eq (s : Nat) :
    getZWaveCallbackID s = (callbackClamp s, callbackClamp s + 1) := by
  have h := callbackClamp_bounds s
  unfold getZWaveCallbackID callbackClamp at *
  split <;> simp_all <;> omega

theorem callbackIDState_shift (s : Nat) :
    ∀ n, callbackIDState s (n + 1) = callbackIDState (getZWaveCallbackID s).2 n := by
  intro n
  induction n with
  | zero => rfl
  | succ m ih =>
    show (getZWaveCallbackID (callbackIDState s (m + 1))).2 = _
    rw [ih]
    rfl

theorem callbackClamp_step (s : Nat) :
    callbackClamp ((getZWaveCallbackID s).2) - callbackIDMin =
      ((callbackClamp s - callbackIDMin) + 1) % 116 := by
  have h := callbackClamp_bounds s
  rw [getZWaveCallbackID_eq]
  generalize callbackClamp s = c at h ⊢
  show callbackClamp (c + 1) - callbackIDMin = (c - callbackIDMin + 1) % 116
  unfold callbackClamp callbackIDMin callbackIDMax
  split <;> omega

/-- Closed form for the n-th callback id handed out from counter state s. -/
theorem callbackIDAt_closed_form (n : Nat) : ∀ s : Nat,
    callbackIDAt s n = callbackIDMin + ((callbackClamp s - callbackIDMin + n) % 116) := by
  induction n with
  | zero =>
    intro s
    have h := callbackClamp_bounds s
    show (getZWaveCallbackID (callbackIDState s 0)).1 = _
    rw [show callbackIDState s 0 = s from rfl, getZWaveCallbackID_eq]
    show callbackClamp s = callbackIDMin + ((callbackClamp s - callbackIDMin + 0) % 116)
    unfold callbackIDMin
    omega
  | succ m ih =>
    intro s
    have hshift : callbackIDAt s (m + 1) = callbackIDAt ((getZWaveCallbackID s).2) m := by
      unfold callbackIDAt
      rw [callbackIDState_shift]
    rw [hshift, ih]
    have hstep := callbackClamp_step s
    have h := callbackClamp_bounds s
    unfold callbackIDMin at hstep ⊢
    rw [hstep]
    omega

set_option maxRecDepth 4000 in
/-- Counterexample to claim C3 as stated: for every uint8 counter state, the
callback id handed out is never 0x7F (the reset fires at the upper bound), so
0x7F, although inside the claimed closed interval [0x0B, 0x7F], is never
produced; moreover the state 0x7F itself is clamped back to 0x0B. -/
theorem c3_counterexample :
    ((List.range 256).all fun s => (getZWaveCallbackID s).1 != 0x7f) = true ∧
    (getZWaveCallbackID 0x7f).1 = callbackIDMin ∧
    (getZWaveCallbackID 0x7e).1 = 0x7e := by
  refine ⟨by decide, by decide, by decide⟩

/-- Claim C3 (amended): every callback id handed out lies in the closed
interval [0x0B, 0x7E]; after an id is handed out the stored counter is that id
plus one (so successive injections advance by one, wrapping from 0x7E back to
0x0B); and from any starting state every value of [0x0B, 0x7E] is eventually
produced. -/
theorem c3_amended_callback_ids (s : Nat) :
    (∀ n, callbackIDMin ≤ callbackIDAt s n ∧ callbackIDAt s n ≤ 0x7e ∧
      callbackIDState s (n + 1) = callbackIDAt s n + 1) ∧
    (∀ v, callbackIDMin ≤ v → v ≤ 0x7e → ∃ n, callbackIDAt s n = v) := by
  constructor
  · intro n
    refine ⟨?_, ?_, ?_⟩
    · rw [callbackIDAt_closed_form]
      unfold callbackIDMin
      omega
    · rw [callbackIDAt_closed_form]
      unfold callbackIDMin
      omega
    · show (getZWaveCallbackID (callbackIDState s n)).2 = _
      unfold callbackIDAt
      rw [getZWaveCallbackID_eq]
  · intro v hv1 hv2
    refine ⟨(v - callbackIDMin) + 116 - (callbackClamp s - callbackIDMin), ?_⟩
    rw [callbackIDAt_closed_form]
    have h := callbackClamp_bounds s
    unfold callbackIDMin at *
    omega

/-- Witness for the amended C3: from state 0 the value 0x42 is eventually
produced, and the first id is in range with the counter advanced past it. -/
theorem c3_amended_callback_ids_witness :
    (∃ n, callbackIDAt 0 n = 0x42) ∧
    (callbackIDMin ≤ callbackIDAt 0 0 ∧ callbackIDAt 0 0 ≤ 0x7e ∧
      callbackIDState 0 1 = callbackIDAt 0 0 + 1) :=
  ⟨(c3_amended_callback_ids 0).2 0x42 (by decide) (by decide),
    (c3_amended_callback_ids 0).1 0⟩

/-! Section: Network request gate (src/network/network.go) -/

/-- The Network state relevant to DoRequest: whether the network is open and
the supported-message-type list (nil before Initialize has run). -/
structure NetworkModel where
  isOpen : Bool
  supportedMessageTypes : Option (List Nat)
deriving DecidableEq, Repr

/-- Result of Network.DoRequest: a synchronous error, or delegation of the
request to the serial controller (the only way the transport is invoked and
hence the only way bytes can reach the byte channel). -/
inductive DoRequestResult where
  | error (msg : String)
  | delegate (request : Packet)
deriving DecidableEq, Repr

/-- Network.DoRequest (network.go lines 123-151): refuse when closed, check
the message type against the supported list when that list is non-nil
(assume supported before initialization), then delegate to the controller. -/
def Network.doRequest (nw : NetworkModel) (request : Packet) : DoRequestResult :=
  if !nw.isOpen then .error "API is not open"
  else
    let found :=
      match nw.supportedMessageTypes with
      | some ts => ts.contains request.messageType
      | none => true
    if !found then .error "MessageType not supported by controller"
    else .delegate request

/-- Claim C6: once the supported-message-type list is populated, a request
whose message type is absent from it fails synchronously with an error and is
never delegated to the transport; while the list is still nil, the request is
delegated unconditionally. -/
theorem c6_unsupported_message_gate (nw : NetworkModel) (request : Packet)
    (hopen : nw.isOpen = true) :
    (∀ ts, nw.supportedMessageTypes = some ts → ts.contains request.messageType = false →
      Network.doRequest nw request = .error "MessageType not supported by controller") ∧
    (nw.supportedMessageTypes = none → Network.doRequest nw request = .delegate request) := by
  constructor
  · intro ts hts hcontains
    simp [Network.doRequest, hopen, hts, hcontains]
    simpa using hcontains
  · intro hnil
    simp [Network.doRequest, hopen, hnil]

/-- Witness for C6: after an initialization that left out ZWSendData (0x13),
a ZWSendData request errors; before initialization it is delegated. -/
theorem c6_unsupported_message_gate_witness :
    (Network.doRequest ⟨true, some [0x02, 0x04, 0x07]⟩
        { preamble := PacketPreambleSOF, messageType := MessageTypeZWSendData } =
      .error "MessageType not supported by controller") ∧
    (Network.doRequest ⟨true, none⟩
        { preamble := PacketPreambleSOF, messageType := MessageTypeZWSendData } =
      .delegate { preamble := PacketPreambleSOF, messageType := MessageTypeZWSendData }) := by
  constructor
  · exact (c6_unsupported_message_gate ⟨true, some [0x02, 0x04, 0x07]⟩
      { preamble := PacketPreambleSOF, messageType := MessageTypeZWSendData } rfl).1
      [0x02, 0x04, 0x07] rfl (by decide)
  · exact (c6_unsupported_message_gate ⟨true, none⟩
      { preamble := PacketPreambleSOF, messageType := MessageTypeZWSendData } rfl).2 rfl

/-! Section: Duration encoding (src/message/message.go lines 472-483) -/

/-- One second in nanoseconds (the unit of the Go time.Duration type). -/
def nsecPerSecond : Nat := 1000000000

/-- One minute in nanoseconds. -/
def nsecPerMinute : Nat := 60 * nsecPerSecond

/-- EncodeDuration (message.go lines 472-483).  The duration is modelled as a
non-negative nanosecond count; the Go code computes uint64(duration.Seconds()),
which on this range equals the nanosecond count divided by 10^9, truncated. -/
def EncodeDuration (ns : Nat) : Except String Nat :=
  let seconds := ns / nsecPerSecond
  if seconds ≤ 0x7f then
    .ok seconds
  else if seconds > 60 ∧ seconds < 60 * 127 ∧ seconds % 60 = 0 then
    .ok (0x80 + (seconds / 60 - 1))
  else
    .error "Duration must be in range [0, 127] seconds or [1, 127] minutes"

/-- Counterexample to claim C7 as stated: one minute (a whole-minute duration
with m = 1) is encoded through the seconds branch as the byte 60, not as the
claimed byte 0x80 + (1 - 1) = 0x80; additionally 127 whole minutes fail to
encode even though the claim maps them to 0x80 + 126. -/
theorem c7_counterexample :
    EncodeDuration (1 * nsecPerMinute) = .ok 60 ∧ (60 : Nat) ≠ 0x80 + (1 - 1) ∧
    EncodeDuration (127 * nsecPerMinute) =
      .error "Duration must be in range [0, 127] seconds or [1, 127] minutes" := by
  refine ⟨by rfl, by decide, by rfl⟩

/-- Claim C7 (amended): every duration whose truncated second count s is at
most 127 - including the whole minutes m = 1 and m = 2 and all fractional
durations below 127 s - is encoded as the byte s; a duration whose truncated
second count is above 127, a whole number of minutes and below 127 minutes is
encoded as 0x80 + (minutes - 1); every other duration is an error (this makes
3..126 the whole-minute range of the high branch: 127 minutes errors). -/
theorem c7_amended_encode_duration (ns : Nat) :
    (ns / nsecPerSecond ≤ 127 → EncodeDuration ns = .ok (ns / nsecPerSecond)) ∧
    (127 < ns / nsecPerSecond → (ns / nsecPerSecond) % 60 = 0 →
      ns / nsecPerSecond < 7620 →
      EncodeDuration ns = .ok (0x80 + (ns / nsecPerSecond / 60 - 1))) ∧
    (127 < ns / nsecPerSecond → ((ns / nsecPerSecond) % 60 ≠ 0 ∨ 7620 ≤ ns / nsecPerSecond) →
      EncodeDuration ns =
        .error "Duration must be in range [0, 127] seconds or [1, 127] minutes") := by
  refine ⟨?_, ?_, ?_⟩
  · intro h
    simp only [EncodeDuration]
    rw [if_pos h]
  · intro h1 h2 h3
    simp only [EncodeDuration]
    rw [if_neg (by omega), if_pos (by omega)]
  · intro h1 h2
    simp only [EncodeDuration]
    rw [if_neg (by omega), if_neg (by omega)]

/-- Witness for the amended C7: 5 seconds encodes as 5, 4 minutes encodes as
0x83, and 127 minutes errors. -/
theorem c7_amended_encode_duration_witness :
    EncodeDuration (5 * nsecPerSecond) = .ok 5 ∧
    EncodeDuration (4 * nsecPerMinute) = .ok 0x83 ∧
    EncodeDuration (127 * nsecPerMinute) =
      .error "Duration must be in range [0, 127] seconds or [1, 127] minutes" :=
  ⟨(c7_amended_encode_duration (5 * nsecPerSecond)).1 (by decide),
    (c7_amended_encode_duration (4 * nsecPerMinute)).2.1 (by decide) (by decide) (by decide),
    (c7_amended_encode_duration (127 * nsecPerMinute)).2.2 (by decide) (by decide)⟩

/-! Section: ApplicationCommandHandler response parsing
(src/message/message_response.go lines 28-49) -/

def MessageTypeApplicationCommandHandler : Nat := 0x04

/-- The message.ApplicationCommandHandler datum. -/
structure ApplicationCommandHandler where
  status : Nat
  nodeID : Nat
  body : List Nat
deriving DecidableEq, Repr

/-- Outcome of a Go parse function: a value, an error return, or a runtime
panic (here: slice index out of range). -/
inductive GoParse (α : Type) where
  | ok (a : α)
  | err (msg : String)
  | panics
deriving DecidableEq, Repr

/-- ApplicationCommandHandlerResponse (message_response.go lines 28-49): after
the message-type check the code reads Body[0], Body[1] and Body[2] with no
length check, so a body shorter than three bytes hits the out-of-bounds panic
(the catch-all match arm); then the payload length byte must equal the number
of remaining bytes. -/
def ApplicationCommandHandlerResponse (p : Packet) : GoParse ApplicationCommandHandler :=
  if p.messageType ≠ MessageTypeApplicationCommandHandler then
    .err "Bad MessageType"
  else
    match p.body with
    | b0 :: b1 :: b2 :: rest =>
      if rest.length ≠ b2 then
        .err "Bad payloadLength"
      else
        .ok ⟨b0, b1, rest⟩
    | _ => .panics

/-- Claim C8: for packets of message type 0x04, a body shorter than three
bytes reaches the out-of-bounds indexing branch (a panic) instead of an error
return; with at least three body bytes the function returns an error exactly
when body byte 2 differs from the remaining length, and otherwise the decoded
datum. -/
theorem c8_application_command_handler_response (p : Packet)
    (hmt : p.messageType = MessageTypeApplicationCommandHandler) :
    (p.body.length < 3 → ApplicationCommandHandlerResponse p = .panics) ∧
    (∀ b0 b1 b2 rest, p.body = b0 :: b1 :: b2 :: rest →
      (rest.length ≠ b2 → ApplicationCommandHandlerResponse p = .err "Bad payloadLength") ∧
      (rest.length = b2 → ApplicationCommandHandlerResponse p = .ok ⟨b0, b1, rest⟩)) := by
  constructor
  · intro hshort
    cases hb : p.body with
    | nil => simp [ApplicationCommandHandlerResponse, hmt, hb]
    | cons b0 t =>
      cases t with
      | nil => simp [ApplicationCommandHandlerResponse, hmt, hb]
      | cons b1 t2 =>
        cases t2 with
        | nil => simp [ApplicationCommandHandlerResponse, hmt, hb]
        | cons b2 rest =>
          rw [hb] at hshort
          simp at hshort
          omega
  · intro b0 b1 b2 rest hb
    constructor
    · intro hne
      simp [ApplicationCommandHandlerResponse, hmt, hb, hne]
    · intro heq
      simp [ApplicationCommandHandlerResponse, hmt, hb, heq]

/-- Witness for C8: a two-byte body panics, a well-formed body decodes, a bad
payload-length byte errors. -/
theorem c8_application_command_handler_response_witness :
    (ApplicationCommandHandlerResponse
        { preamble := PacketPreambleSOF, messageType := 0x04, body := [0, 5] } = .panics) ∧
    (ApplicationCommandHandlerResponse
        { preamble := PacketPreambleSOF, messageType := 0x04, body := [0, 5, 2, 37, 255] } =
      .ok ⟨0, 5, [37, 255]⟩) ∧
    (ApplicationCommandHandlerResponse
        { preamble := PacketPreambleSOF, messageType := 0x04, body := [0, 5, 9, 37, 255] } =
      .err "Bad payloadLength") := by
  refine ⟨?_, ?_, ?_⟩
  · exact (c8_application_command_handler_response
      { preamble := PacketPreambleSOF, messageType := 0x04, body := [0, 5] } rfl).1
      (by decide)
  · exact ((c8_application_command_handler_response
      { preamble := PacketPreambleSOF, messageType := 0x04, body := [0, 5, 2, 37, 255] }
      rfl).2 0 5 2 [37, 255] rfl).2 (by decide)
  · exact ((c8_application_command_handler_response
      { preamble := PacketPreambleSOF, messageType := 0x04, body := [0, 5, 9, 37, 255] }
      rfl).2 0 5 9 [37, 255] rfl).1 (by decide)

/-! Section: Node layer (src/node/node.go) -/

def CommandClassMark : Nat := 0xef
def CommandClassManufacturerSpecific : Nat := 0x72
def ZWApplicationUpdateStateReceived : Nat := 0x84

/-- The Node struct fields (node.go lines 42-67).  Callback channels are
modelled by numeric identifiers; the Go maps keyed by channel are sets of
channels, modelled as lists; a nil map is None. -/
structure NodeState where
  id : Nat
  commandClasses : List Nat
  controlCommandClasses : List Nat
  listening : Bool
  deviceClassBasic : Nat
  deviceClassGeneric : Nat
  deviceClassSpecific : Nat
  manufacturerID : Nat
  productID : Nat
  productType : Nat
  keyCallbacks : Option (List (Nat × List Nat))
  applicationCommandCallbacks : Option (List Nat)
  applicationUpdateCallbacks : Option (List Nat)
deriving DecidableEq, Repr

/-- The message.ApplicationCommand datum handed to the node dispatcher. -/
structure ApplicationCommand where
  status : Nat
  nodeID : Nat
  body : List Nat
deriving DecidableEq, Repr

/-- The node.ApplicationCommandData datum delivered to subscribers (the nested
Command struct is flattened into classID/commandID/data). -/
structure ApplicationCommandData where
  status : Nat
  nodeID : Nat
  classID : Nat
  commandID : Nat
  data : List Nat
deriving DecidableEq, Repr

/-- commandClassIDsToMapKey (node.go lines 95-97). -/
def commandClassIDsToMapKey (commandClassID commandID : Nat) : Nat :=
  (commandClassID <<< 8) ||| commandID

/-- Node.ApplicationCommandHandler (node.go lines 279-335): bodies shorter
than two bytes are logged and dropped; otherwise the keyed subscribers under
(body[0], body[1]) and the broadcast subscribers each receive an independent
copy of the decoded datum.  The node state is returned unchanged (the Go code
only reads the maps).  Deliveries are returned as (channel, datum) pairs. -/
def Node.applicationCommandHandler (node : NodeState) (command : ApplicationCommand) :
    NodeState × List (Nat × ApplicationCommandData) :=
  if command.body.length < 2 then
    (node, [])
  else
    let commandClassID := command.body.getD 0 0
    let commandID := command.body.getD 1 0
    let commandData := command.body.drop 2
    let key := commandClassIDsToMapKey commandClassID commandID
    let keyed :=
      match node.keyCallbacks with
      | none => []
      | some m => (m.lookup key).getD []
    let broadcast := node.applicationCommandCallbacks.getD []
    let datum : ApplicationCommandData :=
      ⟨command.status, command.nodeID, commandClassID, commandID, commandData⟩
    (node, (keyed ++ broadcast).map (fun ch => (ch, datum)))

/-- Claim C10: an inbound application command whose body has fewer than two
bytes is dropped silently: no delivery is made to any keyed or broadcast
subscriber and the node state (subscriber maps included) is unchanged. -/
theorem c10_short_command_dropped (node : NodeState) (command : ApplicationCommand)
    (hshort : command.body.length < 2) :
    Node.applicationCommandHandler node command = (node, []) := by
  simp [Node.applicationCommandHandler, hshort]

/-- Witness for C10 at a node with registered subscribers and a one-byte
command body. -/
theorem c10_short_command_dropped_witness :
    Node.applicationCommandHandler
        ⟨5, [0x25], [], true, 0, 0, 0, 0, 0, 0, some [(0x2503, [7])], some [8], none⟩
        ⟨0, 5, [0x25]⟩ =
      (⟨5, [0x25], [], true, 0, 0, 0, 0, 0, 0, some [(0x2503, [7])], some [8], none⟩, []) :=
  c10_short_command_dropped
    ⟨5, [0x25], [], true, 0, 0, 0, 0, 0, 0, some [(0x2503, [7])], some [8], none⟩
    ⟨0, 5, [0x25]⟩ (by decide)

/-! Section: Node.Load (src/node/node.go lines 116-270) -/

/-- The message.ZWGetNodeProtocolInfo datum (Capabilities.Listening and the
DeviceClass triple, flattened). -/
structure ZWGetNodeProtocolInfo where
  listening : Bool
  basic : Nat
  generic : Nat
  specific : Nat
deriving DecidableEq, Repr

/-- The node.ApplicationUpdateData datum. -/
structure ApplicationUpdateData where
  status : Nat
  nodeID : Nat
  data : List Nat
deriving DecidableEq, Repr

def NODE_CACHE_VERSION : String := "d55bb26e8f524ae2"

/-- The nodeCache blob (node.go lines 101-113), modelled after JSON decoding:
a some value stands for bytes that unmarshal successfully. -/
structure NodeCache where
  version : String
  nodeProtocolInfo : ZWGetNodeProtocolInfo
  applicationUpdateData : ApplicationUpdateData
  manufacturerID : Nat
  productID : Nat
  productType : Nat
deriving DecidableEq, Repr

/-- The class-list split loop (node.go lines 216-225): classes before the
0xEF mark byte are supported, classes after it are controlled. -/
def splitCommandClasses : List Nat → Bool → List Nat × List Nat
  | [], _ => ([], [])
  | x :: xs, afterMark =>
    if afterMark = false ∧ x = CommandClassMark then
      splitCommandClasses xs true
    else if afterMark = false then
      let r := splitCommandClasses xs afterMark
      (x :: r.1, r.2)
    else
      let r := splitCommandClasses xs afterMark
      (r.1, x :: r.2)

/-- The controller-facing environment of one Load call: the outcome each
helper would produce if invoked.  protocolInfo stands for
zWGetNodeProtocolInfo (one DoRequest), requestNodeInfo for zWRequestNodeInfo
(one DoRequest), updates for the application-update data that would arrive on
the subscribed channel before the timeout, and manufacturerGet for
ManufacturerSpecific.Get (one DoRequest), returning
(manufacturer id, product type, product id). -/
structure LoadEnv where
  protocolInfo : Except String ZWGetNodeProtocolInfo
  requestNodeInfo : Except String Unit
  updates : List ApplicationUpdateData
  manufacturerGet : Except String (Nat × Nat × Nat)

/-- Node.Load (node.go lines 116-270), as a function of the decoded cache blob
and the controller environment.  The second component counts DoRequest
invocations reaching the controller.  A usable cache requires the stored
version to match; a listening node waits for the first update datum with the
StateReceived status and at least three data bytes, splits the class list at
the mark byte, and consults the manufacturer-specific facade only when the
supports list contains class 0x72.  Error paths return only the error (the Go
code may leave partially updated node fields behind; no claim depends on
them). -/
def Node.load (node : NodeState) (cacheBytes : Option NodeCache) (env : LoadEnv) :
    Except String (NodeState × NodeCache) × Nat :=
  let oldCache : Option NodeCache :=
    match cacheBytes with
    | none => none
    | some c => if c.version = NODE_CACHE_VERSION then some c else none
  let infoStep : Except String ZWGetNodeProtocolInfo × Nat :=
    match oldCache with
    | none => (env.protocolInfo, 1)
    | some c => (.ok c.nodeProtocolInfo, 0)
  match infoStep with
  | (.error e, n1) => (.error e, n1)
  | (.ok npi, n1) =>
    let node1 := { node with
      listening := npi.listening,
      deviceClassBasic := npi.basic,
      deviceClassGeneric := npi.generic,
      deviceClassSpecific := npi.specific }
    if node1.listening then
      let chanStep : Except String (List ApplicationUpdateData) × Nat :=
        match oldCache with
        | none =>
          match env.requestNodeInfo with
          | .error e => (.error e, 1)
          | .ok _ => (.ok env.updates, 1)
        | some c => (.ok [c.applicationUpdateData], 0)
      match chanStep with
      | (.error e, n2) => (.error e, n1 + n2)
      | (.ok chan, n2) =>
        match chan.find? (fun r => r.status == ZWApplicationUpdateStateReceived) with
        | none => (.error "Timed out waiting for node info data", n1 + n2)
        | some r =>
          if r.data.length < 3 then
            (.error "ZWApplicationUpdateStateReceived too short", n1 + n2)
          else
            let split := splitCommandClasses (r.data.drop 3) false
            let node2 := { node1 with
              deviceClassBasic := r.data.getD 0 0,
              deviceClassGeneric := r.data.getD 1 0,
              deviceClassSpecific := r.data.getD 2 0,
              commandClasses := split.1,
              controlCommandClasses := split.2 }
            if node2.commandClasses.contains CommandClassManufacturerSpecific then
              let manufStep : Except String (Nat × Nat × Nat) × Nat :=
                match oldCache with
                | none => (env.manufacturerGet, 1)
                | some c => (.ok (c.manufacturerID, c.productType, c.productID), 0)
              match manufStep with
              | (.error e, n3) => (.error e, n1 + n2 + n3)
              | (.ok (manufacturerID, productType, productID), n3) =>
                let node3 := { node2 with
                  manufacturerID := manufacturerID,
                  productType := productType,
                  productID := productID }
                let newCache : NodeCache := {
                  version := NODE_CACHE_VERSION,
                  nodeProtocolInfo := npi,
                  applicationUpdateData := r,
                  manufacturerID := manufacturerID,
                  productID := productID,
                  productType := productType }
                (.ok (node3, newCache), n1 + n2 + n3)
            else
              let newCache : NodeCache := {
                version := NODE_CACHE_VERSION,
                nodeProtocolInfo := npi,
                applicationUpdateData := r,
                manufacturerID := 0,
                productID := 0,
                productType := 0 }
              (.ok (node2, newCache), n1 + n2)
    else
      let newCache : NodeCache := {
        version := NODE_CACHE_VERSION,
        nodeProtocolInfo := npi,
        applicationUpdateData := ⟨0, 0, []⟩,
        manufacturerID := 0,
        productID := 0,
        productType := 0 }
      (.ok (node1, newCache), n1)

/-- The supports list a Load reconstitutes from a cached update datum. -/
def loadedSupports (c : NodeCache) : List Nat :=
  (splitCommandClasses (c.applicationUpdateData.data.drop 3) false).1

/-- The controls list a Load reconstitutes from a cached update datum. -/
def loadedControls (c : NodeCache) : List Nat :=
  (splitCommandClasses (c.applicationUpdateData.data.drop 3) false).2

/-- The node state a Load reconstitutes from a listening-node cache blob. -/
def loadedNode (node : NodeState) (c : NodeCache) : NodeState :=
  let base : NodeState := { node with
    listening := true,
    deviceClassBasic := c.applicationUpdateData.data.getD 0 0,
    deviceClassGeneric := c.applicationUpdateData.data.getD 1 0,
    deviceClassSpecific := c.applicationUpdateData.data.getD 2 0,
    commandClasses := loadedSupports c,
    controlCommandClasses := loadedControls c }
  if (loadedSupports c).contains CommandClassManufacturerSpecific then
    { base with
      manufacturerID := c.manufacturerID,
      productType := c.productType,
      productID := c.productID }
  else base

/-- The cache blob a Load returns for a listening-node cache blob. -/
def loadedCache (c : NodeCache) : NodeCache :=
  { version := NODE_CACHE_VERSION,
    nodeProtocolInfo := c.nodeProtocolInfo,
    applicationUpdateData := c.applicationUpdateData,
    manufacturerID := if (loadedSupports c).contains CommandClassManufacturerSpecific
      then c.manufacturerID else 0,
    productID := if (loadedSupports c).contains CommandClassManufacturerSpecific
      then c.productID else 0,
    productType := if (loadedSupports c).contains CommandClassManufacturerSpecific
      then c.productType else 0 }

/-- Counterexample to claim C9 as stated: a blob that unmarshals successfully
and carries the current schema version, but whose stored update datum has a
status other than StateReceived, makes Load fail with a timeout instead of
reconstituting the node and returning a blob (the no-request part does hold:
the DoRequest count is zero). -/
theorem c9_counterexample :
    (⟨NODE_CACHE_VERSION, ⟨true, 4, 0x10, 1⟩, ⟨0, 5, [1, 2, 3]⟩, 9, 9, 9⟩ :
        NodeCache).version = NODE_CACHE_VERSION ∧
    Node.load ⟨5, [], [], false, 0, 0, 0, 0, 0, 0, none, none, none⟩
        (some ⟨NODE_CACHE_VERSION, ⟨true, 4, 0x10, 1⟩, ⟨0, 5, [1, 2, 3]⟩, 9, 9, 9⟩)
        ⟨.error "nc", .error "nc", [], .error "nc"⟩ =
      (.error "Timed out waiting for node info data", 0) :=
  ⟨rfl, rfl⟩

/-- Claim C9 (amended): for every Load call with a blob that unmarshals
successfully and carries the current schema version, no controller request is
issued (the DoRequest count is zero on every path).  When the blob marks the
node non-listening, Load succeeds, sets the listening flag and device classes
from the protocol info of the blob (the class lists are untouched) and returns a
blob with that protocol info and zeroed update and manufacturer fields.  When
the blob marks the node listening and its stored update datum has the
StateReceived status and at least three data bytes, Load succeeds, the device
classes and the supports/controls lists are reconstituted from the update
data, the manufacturer and product ids come from the blob exactly when the
supports list contains the manufacturer-specific class 0x72 (otherwise they
are zeroed), and the returned blob carries the same protocol info and update
datum with the manufacturer fields treated the same way. -/
theorem c9_amended_load_from_cache (node : NodeState) (env : LoadEnv) (c : NodeCache)
    (hver : c.version = NODE_CACHE_VERSION) :
    (Node.load node (some c) env).2 = 0 ∧
    (c.nodeProtocolInfo.listening = false →
      Node.load node (some c) env =
        (.ok ({ node with
            listening := false,
            deviceClassBasic := c.nodeProtocolInfo.basic,
            deviceClassGeneric := c.nodeProtocolInfo.generic,
            deviceClassSpecific := c.nodeProtocolInfo.specific },
          ⟨NODE_CACHE_VERSION, c.nodeProtocolInfo, ⟨0, 0, []⟩, 0, 0, 0⟩), 0)) ∧
    (c.nodeProtocolInfo.listening = true →
      c.applicationUpdateData.status = ZWApplicationUpdateStateReceived →
      3 ≤ c.applicationUpdateData.data.length →
      Node.load node (some c) env = (.ok (loadedNode node c, loadedCache c), 0)) := by
  refine ⟨?_, ?_, ?_⟩
  · by_cases hl : c.nodeProtocolInfo.listening
    · by_cases hst : c.applicationUpdateData.status = ZWApplicationUpdateStateReceived
      · by_cases hlen3 : c.applicationUpdateData.data.length < 3
        · simp [Node.load, hver, hl, hst, hlen3, List.find?]
        · by_cases hms : CommandClassManufacturerSpecific ∈
              (splitCommandClasses (c.applicationUpdateData.data.drop 3) false).1
          · simp [Node.load, hver, hl, hst, hlen3, hms, List.find?]
          · simp [Node.load, hver, hl, hst, hlen3, hms, List.find?]
      · have hstb : (c.applicationUpdateData.status == ZWApplicationUpdateStateReceived)
            = false := by simpa using hst
        simp [Node.load, hver, hl, hstb, List.find?]
    · simp [Node.load, hver, hl]
  · intro hl
    simp [Node.load, hver, hl]
  · intro hl hst hlen
    have hnl : ¬(c.applicationUpdateData.data.length < 3) := by omega
    by_cases hms : CommandClassManufacturerSpecific ∈
        (splitCommandClasses (c.applicationUpdateData.data.drop 3) false).1
    · simp [Node.load, hver, hl, hst, hnl, hms, List.find?, loadedNode, loadedCache,
        loadedSupports, loadedControls]
    · simp [Node.load, hver, hl, hst, hnl, hms, List.find?, loadedNode, loadedCache,
        loadedSupports, loadedControls]

/-- Witness for the amended C9 on a concrete listening-node blob whose class
list contains the manufacturer-specific class. -/
theorem c9_amended_load_from_cache_witness :
    Node.load ⟨5, [], [], false, 0, 0, 0, 0, 0, 0, none, none, none⟩
        (some ⟨NODE_CACHE_VERSION, ⟨true, 4, 0x10, 1⟩,
          ⟨ZWApplicationUpdateStateReceived, 5, [4, 0x10, 1, 0x25, 0x72, 0xef, 0x20]⟩,
          0x86, 0x33, 0x11⟩)
        ⟨.error "nc", .error "nc", [], .error "nc"⟩ =
      (.ok (loadedNode ⟨5, [], [], false, 0, 0, 0, 0, 0, 0, none, none, none⟩
          ⟨NODE_CACHE_VERSION, ⟨true, 4, 0x10, 1⟩,
            ⟨ZWApplicationUpdateStateReceived, 5, [4, 0x10, 1, 0x25, 0x72, 0xef, 0x20]⟩,
            0x86, 0x33, 0x11⟩,
        loadedCache ⟨NODE_CACHE_VERSION, ⟨true, 4, 0x10, 1⟩,
          ⟨ZWApplicationUpdateStateReceived, 5, [4, 0x10, 1, 0x25, 0x72, 0xef, 0x20]⟩,
          0x86, 0x33, 0x11⟩), 0) :=
  (c9_amended_load_from_cache ⟨5, [], [], false, 0, 0, 0, 0, 0, 0, none, none, none⟩
    ⟨.error "nc", .error "nc", [], .error "nc"⟩
    ⟨NODE_CACHE_VERSION, ⟨true, 4, 0x10, 1⟩,
      ⟨ZWApplicationUpdateStateReceived, 5, [4, 0x10, 1, 0x25, 0x72, 0xef, 0x20]⟩,
      0x86, 0x33, 0x11⟩ rfl).2.2 rfl rfl (by decide)

/-- Witness for C2 at a concrete SOF packet with a two-byte body. -/
theorem c2_roundtrip_witness :
    feedOutputs .init [PacketPreambleSOF, 5, 0, 2, 7, 8, 247] =
      List.replicate ([PacketPreambleSOF, 5, 0, 2, 7, 8, 247].length - 1)
        ((none : Option Packet), (none : Option String)) ++
        [(some ⟨PacketPreambleSOF, 5, 0, 2, [7, 8], 247⟩, none)] ∧
    ((⟨PacketPreambleSOF, 5, 0, 2, [7, 8], 247⟩ : Packet).preamble = PacketPreambleSOF →
      [PacketPreambleSOF, 5, 0, 2, 7, 8, 247].getLast? =
        some (⟨PacketPreambleSOF, 5, 0, 2, [7, 8], 247⟩ : Packet).checksum) :=
  c2_roundtrip ⟨PacketPreambleSOF, 5, 0, 2, [7, 8], 247⟩
    [PacketPreambleSOF, 5, 0, 2, 7, 8, 247]
    (Or.inr ⟨rfl, Or.inl rfl, by decide, rfl⟩) rfl

end GoZWave
